import Mathlib

/-!
Shallow embedding of the two client-side scripts of the Hillz repository:
`src/staticfiles/js/script.js` (the Page Interaction Script) and
`src/car_rental/static/js/main.js` (the Carousel Controller).

DOM elements are modelled as a class list plus an attribute list; handlers
are functions on an explicit page state, returning `Except NullRef _` where
the JavaScript would dereference a possibly-null element.  Timers are
modelled as scheduled events with an explicit delivery lateness.
-/

namespace Hillz

/-- A DOM element: its class list and its attributes (name-value pairs). -/
structure Element where
  classes : List String
  attrs : List (String × String)
deriving DecidableEq

/-- `classList.add c`: appends `c` unless already present. -/
def classAdd (cs : List String) (c : String) : List String :=
  if c ∈ cs then cs else cs ++ [c]

/-- `classList.remove c`: removes every occurrence of `c`. -/
def classRemove (cs : List String) (c : String) : List String :=
  cs.filter (fun x => x != c)

/-- `setAttribute k v`: replaces any existing binding of `k` with `v`. -/
def setAttr (as : List (String × String)) (k v : String) : List (String × String) :=
  (as.filter (fun kv => kv.1 != k)) ++ [(k, v)]

/-- `getAttribute k`: the current value bound to `k`, if any. -/
def getAttr (as : List (String × String)) (k : String) : Option String :=
  (as.find? (fun kv => kv.1 == k)).map (fun kv => kv.2)

/-- The page state seen by the Page Interaction Script: the five elements it
looks up (each possibly absent from the DOM), the vertical scroll offset,
and which element id currently holds keyboard focus. -/
structure Page where
  preloader : Option Element
  navbar : Option Element
  backToTop : Option Element
  skipLink : Option Element
  mainContent : Option Element
  scrollY : Nat
  focused : Option String
deriving DecidableEq

/-- An unhandled null-reference failure, carrying the id of the absent element. -/
structure NullRef where
  elemId : String
deriving DecidableEq

/-- Navbar scroll handler (`script.js` lines 16-22): dereferences `navbar`
unconditionally, then adds the class `"navbar-scrolled"` when
`window.scrollY > 50` and removes it otherwise. -/
def navbarScrollHandler (p : Page) : Except NullRef Page :=
  match p.navbar with
  | none => .error ⟨"mainNavbar"⟩
  | some nav =>
    if p.scrollY > 50 then
      .ok { p with navbar := some { nav with classes := classAdd nav.classes "navbar-scrolled" } }
    else
      .ok { p with navbar := some { nav with classes := classRemove nav.classes "navbar-scrolled" } }

/-- Back-to-top scroll handler (`script.js` lines 27-33): dereferences
`backToTopButton` unconditionally, then adds the class `"show"` when
`window.scrollY > 300` and removes it otherwise. -/
def backToTopScrollHandler (p : Page) : Except NullRef Page :=
  match p.backToTop with
  | none => .error ⟨"backToTop"⟩
  | some btn =>
    if p.scrollY > 300 then
      .ok { p with backToTop := some { btn with classes := classAdd btn.classes "show" } }
    else
      .ok { p with backToTop := some { btn with classes := classRemove btn.classes "show" } }

/-- A `window.scrollTo` command, as issued by the back-to-top click handler. -/
structure ScrollCommand where
  top : Nat
  behavior : String
deriving DecidableEq

/-- Result of running a click handler: whether `preventDefault` was called,
the scroll commands issued, and the page state afterwards. -/
structure ClickResult where
  defaultPrevented : Bool
  scrollCommands : List ScrollCommand
  page : Page
deriving DecidableEq

/-- Back-to-top click handler (`script.js` lines 35-41): calls
`e.preventDefault()` and then `window.scrollTo (top 0, smooth)`, touching
nothing else. -/
def backToTopClickHandler (p : Page) : ClickResult :=
  { defaultPrevented := true
    scrollCommands := [{ top := 0, behavior := "smooth" }]
    page := p }

/-- Skip-link click handler (`script.js` lines 46-54): calls
`e.preventDefault()`, then, only if the `main-content` element exists,
sets its `tabindex` attribute to `"-1"` and focuses it. -/
def skipLinkClickHandler (p : Page) : ClickResult :=
  match p.mainContent with
  | none => { defaultPrevented := true, scrollCommands := [], page := p }
  | some mc =>
    { defaultPrevented := true
      scrollCommands := []
      page := { p with
                  mainContent := some { mc with attrs := setAttr mc.attrs "tabindex" "-1" }
                  focused := some "main-content" } }

/-- The handlers the `DOMContentLoaded` body of `script.js` may register. -/
inductive HandlerTag
  | preloaderLoad
  | navbarScroll
  | backToTopScroll
  | backToTopClick
  | skipLinkClick
deriving DecidableEq

/-- The `DOMContentLoaded` body of `script.js`, line by line: the preloader
load handler is registered only behind an `if (preloader)` guard; the two
scroll handlers are registered on `window` unconditionally (a null lookup
result does not fail here); the back-to-top click registration at line 35
dereferences `backToTopButton` and therefore fails when it is absent; the
skip-link click handler is registered behind an `if (skipLink)` guard. -/
def domContentLoadedInit (p : Page) : Except NullRef (List HandlerTag) :=
  let r1 : List HandlerTag :=
    match p.preloader with
    | some _ => [.preloaderLoad]
    | none => []
  let r2 := r1 ++ [.navbarScroll, .backToTopScroll]
  match p.backToTop with
  | none => .error ⟨"backToTop"⟩
  | some _ =>
    let r3 := r2 ++ [.backToTopClick]
    match p.skipLink with
    | some _ => .ok (r3 ++ [.skipLinkClick])
    | none => .ok r3

/-- Preloader hiding (`script.js` lines 3-11): when the preloader exists, the
window-load handler schedules a single `setTimeout` with delay 500 ms whose
callback adds the class `"hidden"`; the callback is delivered no earlier
than the delay, with a nonnegative event-loop lateness.  Each entry is the
delivery time paired with the preloader element after the callback ran. -/
def preloaderHiddenEvents (p : Page) (tLoad lateness : Nat) : List (Nat × Element) :=
  match p.preloader with
  | none => []
  | some pre => [(tLoad + 500 + lateness, { pre with classes := classAdd pre.classes "hidden" })]

/-- Carousel configuration options passed to the widget constructor. -/
structure CarouselConfig where
  interval : Nat
  wrap : Bool
  keyboard : Bool
deriving DecidableEq

/-- Whether the carousel widget is auto-advancing or suspended. -/
inductive CarouselMode
  | cycling
  | paused
deriving DecidableEq

/-- Modelled from the spec: the third-party carousel widget (`bootstrap.Carousel`)
is an external collaborator, not part of this repository; per the spec it is a
rotating (auto-advancing) widget accepting interval, wrap and keyboard
configuration and providing `pause` (suspend auto-advance) and `cycle`
(resume cyclic auto-advance) operations. -/
structure BootstrapCarousel where
  config : CarouselConfig
  mode : CarouselMode
deriving DecidableEq

/-- Modelled from the spec: constructing the widget yields a rotating
(cycling) carousel with the given configuration. -/
def BootstrapCarousel.new (cfg : CarouselConfig) : BootstrapCarousel :=
  { config := cfg, mode := .cycling }

/-- Modelled from the spec: `pause()` suspends auto-advance. -/
def BootstrapCarousel.pause (c : BootstrapCarousel) : BootstrapCarousel :=
  { c with mode := .paused }

/-- Modelled from the spec: `cycle()` resumes cyclic auto-advance. -/
def BootstrapCarousel.cycle (c : BootstrapCarousel) : BootstrapCarousel :=
  { c with mode := .cycling }

/-- The two hover bindings the Carousel Controller registers on the container. -/
inductive CarouselBinding
  | mouseenter
  | mouseleave
deriving DecidableEq

/-- The `DOMContentLoaded` body of `main.js`: looks up `carCarousel` with no
existence guard, constructs the widget with interval 5000, wrap true and
keyboard true, and registers mouseenter and mouseleave listeners on the
container; when the container is absent, the constructor call and the
listener registrations dereference null and fail. -/
def carouselInit (container : Option Element) :
    Except NullRef (BootstrapCarousel × List CarouselBinding) :=
  match container with
  | none => .error ⟨"carCarousel"⟩
  | some _ =>
    let c := BootstrapCarousel.new { interval := 5000, wrap := true, keyboard := true }
    .ok (c, [.mouseenter, .mouseleave])

/-- Mouseenter handler (`main.js` lines 12-14): invokes `carousel.pause()`. -/
def carouselMouseenterHandler (c : BootstrapCarousel) : BootstrapCarousel :=
  c.pause

/-- Mouseleave handler (`main.js` lines 16-18): invokes `carousel.cycle()`. -/
def carouselMouseleaveHandler (c : BootstrapCarousel) : BootstrapCarousel :=
  c.cycle

/-! ### Concrete page states used as test inputs -/

/-- An element with no classes and no attributes. -/
def emptyElem : Element := { classes := [], attrs := [] }

/-- A page on which every looked-up element is absent, scrolled to 100. -/
def pAllAbsent : Page :=
  { preloader := none, navbar := none, backToTop := none, skipLink := none,
    mainContent := none, scrollY := 100, focused := none }

/-- A page on which every looked-up element is present, scrolled to 400. -/
def pAllPresent : Page :=
  { preloader := some emptyElem, navbar := some emptyElem, backToTop := some emptyElem,
    skipLink := some emptyElem, mainContent := some emptyElem, scrollY := 400,
    focused := none }

/-- A page whose navigation bar is absent but whose back-to-top control is present. -/
def pNoNavbar : Page :=
  { preloader := some emptyElem, navbar := none, backToTop := some emptyElem,
    skipLink := some emptyElem, mainContent := some emptyElem, scrollY := 100,
    focused := none }

/-- A page whose back-to-top control is absent; everything else is present. -/
def pNoBackToTop : Page :=
  { preloader := some emptyElem, navbar := some emptyElem, backToTop := none,
    skipLink := some emptyElem, mainContent := some emptyElem, scrollY := 100,
    focused := none }

/-- A page with a bare navigation bar, scrolled to offset 51. -/
def pNav51 : Page :=
  { preloader := none, navbar := some emptyElem, backToTop := some emptyElem,
    skipLink := none, mainContent := none, scrollY := 51, focused := none }

/-- The page `pNav51` after the navbar scroll handler ran. -/
def pNav51After : Page :=
  { pNav51 with navbar := some { classes := ["navbar-scrolled"], attrs := [] } }

/-! ### Helper lemmas on class-list operations -/

theorem mem_classAdd_self (cs : List String) (c : String) : c ∈ classAdd cs c := by
  unfold classAdd
  split
  · assumption
  · exact List.mem_append_right cs (List.mem_singleton.mpr rfl)

theorem not_mem_classRemove_self (cs : List String) (c : String) :
    c ∉ classRemove cs c := by
  unfold classRemove
  intro h
  rcases List.mem_filter.mp h with ⟨-, hb⟩
  exact bne_iff_ne.mp hb rfl

theorem mem_classAdd_iff (cs : List String) (c d : String) (h : d ≠ c) :
    d ∈ classAdd cs c ↔ d ∈ cs := by
  unfold classAdd
  split
  · exact Iff.rfl
  · constructor
    · intro hm
      rcases List.mem_append.mp hm with hm | hm
      · exact hm
      · exact absurd (List.mem_singleton.mp hm) h
    · exact fun hm => List.mem_append_left _ hm

theorem mem_classRemove_iff (cs : List String) (c d : String) (h : d ≠ c) :
    d ∈ classRemove cs c ↔ d ∈ cs := by
  unfold classRemove
  constructor
  · intro hm
    exact (List.mem_filter.mp hm).1
  · intro hm
    exact List.mem_filter.mpr ⟨hm, bne_iff_ne.mpr h⟩

theorem classAdd_idem (cs : List String) (c : String) :
    classAdd (classAdd cs c) c = classAdd cs c := by
  unfold classAdd
  split
  · simp_all
  · simp [List.mem_append]

theorem classRemove_idem (cs : List String) (c : String) :
    classRemove (classRemove cs c) c = classRemove cs c := by
  unfold classRemove
  rw [List.filter_filter]
  simp [Bool.and_self]

theorem getAttr_setAttr (as : List (String × String)) (k v : String) :
    getAttr (setAttr as k v) k = some v := by
  unfold getAttr setAttr
  rw [List.find?_append]
  have h : List.find? (fun kv => kv.1 == k) (List.filter (fun kv => kv.1 != k) as) = none := by
    rw [List.find?_eq_none]
    intro kv hkv
    have hb := (List.mem_filter.mp hkv).2
    simpa using bne_iff_ne.mp hb
  rw [h]
  simp

/-- Which handlers the initialization registers, when it succeeds: the
preloader load handler exactly when the preloader exists, and the skip-link
click handler exactly when the skip link exists. -/
theorem init_registered_iff (p : Page) (regs : List HandlerTag)
    (hinit : domContentLoadedInit p = .ok regs) :
    (HandlerTag.preloaderLoad ∈ regs ↔ p.preloader.isSome) ∧
    (HandlerTag.skipLinkClick ∈ regs ↔ p.skipLink.isSome) := by
  unfold domContentLoadedInit at hinit
  rcases hp : p.preloader with _ | pre <;>
    rcases hb : p.backToTop with _ | b <;>
      rcases hs : p.skipLink with _ | s <;>
        simp only [hp, hb, hs] at hinit <;>
        first
          | exact Except.noConfusion hinit
          | (rw [Except.ok.injEq] at hinit
             subst hinit
             simp)

/-! ### Claims -/

/-- C1, counterexample: on the run `pNoNavbar`, in which the navigation bar
element is absent from the DOM, the navbar scroll handler is not a no-op:
it raises an unhandled null-reference failure. -/
theorem C1_counterexample :
    navbarScrollHandler pNoNavbar = .error ⟨"mainNavbar"⟩ := by
  rfl

/-- C1 (amended): the handlers whose target lookup is guarded degrade to a
no-op when the element is absent — the skip-link click handler leaves the
page unchanged (beyond preventing default) when the main-content landmark
is absent, and the preloader load handler and skip-link click handler are
not even registered when their element is absent — but the navbar and
back-to-top scroll handlers raise a null-reference failure, not a no-op,
when their element is absent. -/
theorem C1_element_absence (p : Page) :
    (p.mainContent = none →
      skipLinkClickHandler p =
        { defaultPrevented := true, scrollCommands := [], page := p }) ∧
    (∀ regs, domContentLoadedInit p = .ok regs →
      (p.preloader = none → HandlerTag.preloaderLoad ∉ regs) ∧
      (p.skipLink = none → HandlerTag.skipLinkClick ∉ regs)) ∧
    (p.navbar = none → navbarScrollHandler p = .error ⟨"mainNavbar"⟩) ∧
    (p.backToTop = none → backToTopScrollHandler p = .error ⟨"backToTop"⟩) := by
  refine ⟨?_, ?_, ?_, ?_⟩
  · intro hm
    unfold skipLinkClickHandler
    rw [hm]
  · intro regs hinit
    have h := init_registered_iff p regs hinit
    constructor
    · intro hp hmem
      have := h.1.mp hmem
      rw [hp] at this
      simp at this
    · intro hs hmem
      have := h.2.mp hmem
      rw [hs] at this
      simp at this
  · intro hn
    unfold navbarScrollHandler
    rw [hn]
  · intro hb
    unfold backToTopScrollHandler
    rw [hb]

/-- C1, witness: the amended statement evaluated on the concrete run
`pAllAbsent`, on which every looked-up element is absent. -/
theorem C1_element_absence_witness :
    skipLinkClickHandler pAllAbsent =
      { defaultPrevented := true, scrollCommands := [], page := pAllAbsent } ∧
    navbarScrollHandler pAllAbsent = .error ⟨"mainNavbar"⟩ ∧
    backToTopScrollHandler pAllAbsent = .error ⟨"backToTop"⟩ :=
  ⟨(C1_element_absence pAllAbsent).1 rfl,
   (C1_element_absence pAllAbsent).2.2.1 rfl,
   (C1_element_absence pAllAbsent).2.2.2 rfl⟩

/-- C2, counterexample: the carousel container lookup in the Carousel
Controller is not guarded: on the run in which `carCarousel` is absent,
initialization raises a null-reference failure instead of silently
disabling the feature. -/
theorem C2_counterexample :
    carouselInit none = .error ⟨"carCarousel"⟩ := by
  rfl

/-- C2 (amended): among the element lookups other than the navigation-bar
and back-to-top lookups, the preloader, skip-link and main-content lookups
are guarded — absence silently disables the corresponding feature — but the
carousel container lookup is unguarded, and its absence raises a failure. -/
theorem C2_guarded_lookups (p : Page) :
    (∀ regs, domContentLoadedInit p = .ok regs →
      (HandlerTag.preloaderLoad ∈ regs ↔ p.preloader.isSome) ∧
      (HandlerTag.skipLinkClick ∈ regs ↔ p.skipLink.isSome)) ∧
    (p.mainContent = none →
      (skipLinkClickHandler p).page = p ∧
      (skipLinkClickHandler p).defaultPrevented = true) ∧
    (∀ el, (carouselInit (some el)).isOk = true) ∧
    (carouselInit none).isOk = false := by
  refine ⟨fun regs hinit => init_registered_iff p regs hinit, ?_, fun el => rfl, rfl⟩
  intro hm
  unfold skipLinkClickHandler
  rw [hm]
  exact ⟨rfl, rfl⟩

/-- C2, witness: the amended statement evaluated on the concrete run
`pAllAbsent` for the main-content leg, and on the absent carousel
container. -/
theorem C2_guarded_lookups_witness :
    (skipLinkClickHandler pAllAbsent).page = pAllAbsent ∧
    (carouselInit none).isOk = false :=
  ⟨((C2_guarded_lookups pAllAbsent).2.1 rfl).1,
   (C2_guarded_lookups pAllAbsent).2.2.2⟩

/-- C3, counterexample: on the run `pNoBackToTop`, in which the back-to-top
element is absent, a null-reference failure occurs during the
`DOMContentLoaded` initialization itself — at the click-listener
registration — not first at a scroll event. -/
theorem C3_counterexample :
    domContentLoadedInit pNoBackToTop = .error ⟨"backToTop"⟩ := by
  rfl

/-- C3 (amended): when the navigation bar element is absent but the
back-to-top element is present, initialization completes without failure
and the null-reference failure first surfaces when a scroll event fires;
but when the back-to-top element is absent, the failure occurs during
initialization itself, because a click listener is attached to the absent
element there. -/
theorem C3_init_vs_scroll_failure (p : Page) :
    (p.navbar = none → p.backToTop.isSome = true →
      (domContentLoadedInit p).isOk = true ∧
      navbarScrollHandler p = .error ⟨"mainNavbar"⟩) ∧
    (p.backToTop = none → domContentLoadedInit p = .error ⟨"backToTop"⟩) := by
  constructor
  · intro hn hb
    constructor
    · rcases hbs : p.backToTop with _ | b
      · rw [hbs] at hb
        simp at hb
      · unfold domContentLoadedInit
        rcases hp : p.preloader with _ | pre <;>
          rcases hs : p.skipLink with _ | s <;>
            simp [hp, hbs, hs, Except.isOk, Except.toBool]
    · unfold navbarScrollHandler
      rw [hn]
  · intro hb
    unfold domContentLoadedInit
    rcases hp : p.preloader with _ | pre <;> simp [hp, hb]

/-- C3, witness: the amended statement evaluated on the concrete runs
`pNoNavbar` and `pNoBackToTop`. -/
theorem C3_init_vs_scroll_failure_witness :
    ((domContentLoadedInit pNoNavbar).isOk = true ∧
      navbarScrollHandler pNoNavbar = .error ⟨"mainNavbar"⟩) ∧
    domContentLoadedInit pNoBackToTop = .error ⟨"backToTop"⟩ :=
  ⟨(C3_init_vs_scroll_failure pNoNavbar).1 rfl rfl,
   (C3_init_vs_scroll_failure pNoBackToTop).2 rfl⟩

/-- C4, counterexample: at scroll offset 51 (strictly greater than 50) the
navbar scroll handler adds the class `"navbar-scrolled"`; the element does
not gain the class `"scrolled"` — the class the claim names — so the
navigation bar lacks the `"scrolled"` class even above the threshold. -/
theorem C4_counterexample :
    navbarScrollHandler pNav51 = .ok pNav51After ∧
    "scrolled" ∉ (pNav51After.navbar.getD emptyElem).classes ∧
    50 < pNav51.scrollY :=
  ⟨rfl, by decide, by decide⟩

/-- C4 (amended): for every scroll event, after the navbar scroll handler
runs: if the vertical scroll offset is at most 50 pixels the navigation bar
lacks the class `"navbar-scrolled"` (not `"scrolled"`), and if the offset
is strictly greater than 50 it has that class; the transition is exact at
the 50-pixel boundary. -/
theorem C4_navbar_threshold (p q : Page) (e : Element)
    (hn : p.navbar = some e) (hr : navbarScrollHandler p = .ok q) :
    ∃ f, q.navbar = some f ∧
      (p.scrollY ≤ 50 → "navbar-scrolled" ∉ f.classes) ∧
      (50 < p.scrollY → "navbar-scrolled" ∈ f.classes) := by
  simp only [navbarScrollHandler, hn] at hr
  split at hr <;> rename_i h <;> injection hr with hq <;> subst hq
  · exact ⟨_, rfl, fun hle => absurd h (by omega), fun _ => mem_classAdd_self _ _⟩
  · exact ⟨_, rfl, fun _ => not_mem_classRemove_self _ _, fun hlt => absurd hlt h⟩

/-- C4, witness: the amended statement evaluated on the concrete run
`pNav51`, at offset 51. -/
theorem C4_navbar_threshold_witness :
    ∃ f, pNav51After.navbar = some f ∧
      (pNav51.scrollY ≤ 50 → "navbar-scrolled" ∉ f.classes) ∧
      (50 < pNav51.scrollY → "navbar-scrolled" ∈ f.classes) :=
  C4_navbar_threshold pNav51 pNav51After emptyElem rfl rfl

/-- The page `pAllPresent` after the back-to-top scroll handler ran at
offset 400. -/
def pAllPresentShown : Page :=
  { pAllPresent with backToTop := some { classes := ["show"], attrs := [] } }

/-- C5: for every scroll event, after the back-to-top scroll handler runs:
if the vertical scroll offset is at most 300 pixels the back-to-top control
lacks the class `"show"`, and if the offset is strictly greater than 300 it
has that class. -/
theorem C5_backToTop_threshold (p q : Page) (e : Element)
    (hb : p.backToTop = some e) (hr : backToTopScrollHandler p = .ok q) :
    ∃ f, q.backToTop = some f ∧
      (p.scrollY ≤ 300 → "show" ∉ f.classes) ∧
      (300 < p.scrollY → "show" ∈ f.classes) := by
  simp only [backToTopScrollHandler, hb] at hr
  split at hr <;> rename_i h <;> injection hr with hq <;> subst hq
  · exact ⟨_, rfl, fun hle => absurd h (by omega), fun _ => mem_classAdd_self _ _⟩
  · exact ⟨_, rfl, fun _ => not_mem_classRemove_self _ _, fun hlt => absurd hlt h⟩

/-- C5, witness: the statement evaluated on the concrete run `pAllPresent`,
at offset 400. -/
theorem C5_backToTop_threshold_witness :
    ∃ f, pAllPresentShown.backToTop = some f ∧
      (pAllPresent.scrollY ≤ 300 → "show" ∉ f.classes) ∧
      (300 < pAllPresent.scrollY → "show" ∈ f.classes) :=
  C5_backToTop_threshold pAllPresent pAllPresentShown emptyElem rfl rfl

/-- C6: for every click on the skip-to-content link (the link being
present), for every starting focus state and every prior `tabindex` of the
main-content landmark, the handler prevents default navigation, sets the
landmark's `tabindex` attribute to the negative value `"-1"` (making it
programmatically focusable), and moves keyboard focus to the landmark. -/
theorem C6_skipLink_focus (p : Page) (mc : Element)
    (_hl : p.skipLink.isSome = true) (hm : p.mainContent = some mc) :
    (skipLinkClickHandler p).defaultPrevented = true ∧
    ∃ f, (skipLinkClickHandler p).page.mainContent = some f ∧
      getAttr f.attrs "tabindex" = some "-1" ∧
      (skipLinkClickHandler p).page.focused = some "main-content" := by
  simp only [skipLinkClickHandler, hm]
  exact ⟨trivial, _, rfl, getAttr_setAttr _ _ _, trivial⟩

/-- C6, witness: the statement evaluated on the concrete run `pAllPresent`. -/
theorem C6_skipLink_focus_witness :
    (skipLinkClickHandler pAllPresent).defaultPrevented = true ∧
    ∃ f, (skipLinkClickHandler pAllPresent).page.mainContent = some f ∧
      getAttr f.attrs "tabindex" = some "-1" ∧
      (skipLinkClickHandler pAllPresent).page.focused = some "main-content" :=
  C6_skipLink_focus pAllPresent emptyElem rfl rfl

/-- C7: when a preloader element exists at page-ready, the `"hidden"` class
is added exactly once per page load, and no earlier than 500 ms after the
window load event (whatever the nonnegative event-loop lateness); when no
preloader element exists, no event is scheduled and the class is never
added. -/
theorem C7_preloader_hidden (p : Page) (tLoad lateness : Nat) :
    (∀ pre, p.preloader = some pre →
      (preloaderHiddenEvents p tLoad lateness).length = 1 ∧
      ∀ t e, (t, e) ∈ preloaderHiddenEvents p tLoad lateness →
        tLoad + 500 ≤ t ∧ "hidden" ∈ e.classes) ∧
    (p.preloader = none → preloaderHiddenEvents p tLoad lateness = []) := by
  constructor
  · intro pre hp
    simp only [preloaderHiddenEvents, hp]
    refine ⟨rfl, ?_⟩
    intro t e hte
    simp only [List.mem_singleton, Prod.mk.injEq] at hte
    obtain ⟨ht, he⟩ := hte
    subst ht
    subst he
    exact ⟨by omega, mem_classAdd_self _ _⟩
  · intro hp
    simp only [preloaderHiddenEvents, hp]

/-- C7, witness: the statement evaluated on the concrete runs `pAllPresent`
(preloader present) and `pAllAbsent` (preloader absent), with load time 0
and lateness 0. -/
theorem C7_preloader_hidden_witness :
    ((preloaderHiddenEvents pAllPresent 0 0).length = 1 ∧
      ∀ t e, (t, e) ∈ preloaderHiddenEvents pAllPresent 0 0 →
        0 + 500 ≤ t ∧ "hidden" ∈ e.classes) ∧
    preloaderHiddenEvents pAllAbsent 0 0 = [] :=
  ⟨(C7_preloader_hidden pAllPresent 0 0).1 emptyElem rfl,
   (C7_preloader_hidden pAllAbsent 0 0).2 rfl⟩

/-- C8: the Carousel Controller constructs the carousel on the container
with exactly the configuration interval 5000 ms, wrap enabled and keyboard
enabled, and binds mouseenter and mouseleave on the container; the
mouseenter handler invokes the widget's `pause` operation, the mouseleave
handler invokes its `cycle` (resume) operation, and after an
enter-then-leave sequence the carousel is auto-advancing (cycling) again. -/
theorem C8_carousel_contract (el : Element) :
    (∃ c bs, carouselInit (some el) = .ok (c, bs) ∧
      c.config = { interval := 5000, wrap := true, keyboard := true } ∧
      bs = [CarouselBinding.mouseenter, CarouselBinding.mouseleave]) ∧
    (∀ w : BootstrapCarousel,
      carouselMouseenterHandler w = w.pause ∧
      carouselMouseleaveHandler w = w.cycle ∧
      (carouselMouseenterHandler w).mode = CarouselMode.paused ∧
      (carouselMouseleaveHandler (carouselMouseenterHandler w)).mode =
        CarouselMode.cycling) :=
  ⟨⟨_, _, rfl, rfl, rfl⟩, fun _ => ⟨rfl, rfl, rfl, rfl⟩⟩

/-- C9: for every click on the back-to-top control and every starting page
state (in particular every starting scroll offset), the handler prevents
the default action and issues exactly one scroll command, targeting
vertical offset 0 with smooth behavior; the page state is otherwise
untouched. -/
theorem C9_backToTop_click (p : Page) :
    (backToTopClickHandler p).defaultPrevented = true ∧
    (backToTopClickHandler p).scrollCommands = [{ top := 0, behavior := "smooth" }] ∧
    (backToTopClickHandler p).scrollCommands.length = 1 ∧
    (backToTopClickHandler p).page = p :=
  ⟨rfl, rfl, rfl, rfl⟩

/-- C10: the navbar scroll handler changes at most the `"navbar-scrolled"`
class membership of the navigation bar, and the back-to-top scroll handler
at most the `"show"` class membership of the back-to-top control: every
other class, every attribute, every other element, the scroll offset and
the focus are unchanged; and each handler is idempotent — running it again
on its own result leaves the state fixed. -/
theorem C10_scroll_handlers_frame (p q : Page) :
    (navbarScrollHandler p = .ok q →
      q.preloader = p.preloader ∧ q.backToTop = p.backToTop ∧
      q.skipLink = p.skipLink ∧ q.mainContent = p.mainContent ∧
      q.scrollY = p.scrollY ∧ q.focused = p.focused ∧
      (∀ e f, p.navbar = some e → q.navbar = some f →
        f.attrs = e.attrs ∧
        ∀ c, c ≠ "navbar-scrolled" → (c ∈ f.classes ↔ c ∈ e.classes)) ∧
      navbarScrollHandler q = .ok q) ∧
    (backToTopScrollHandler p = .ok q →
      q.preloader = p.preloader ∧ q.navbar = p.navbar ∧
      q.skipLink = p.skipLink ∧ q.mainContent = p.mainContent ∧
      q.scrollY = p.scrollY ∧ q.focused = p.focused ∧
      (∀ e f, p.backToTop = some e → q.backToTop = some f →
        f.attrs = e.attrs ∧
        ∀ c, c ≠ "show" → (c ∈ f.classes ↔ c ∈ e.classes)) ∧
      backToTopScrollHandler q = .ok q) := by
  constructor
  · intro hr
    rcases hn : p.navbar with _ | nav
    · simp only [navbarScrollHandler, hn] at hr
      exact Except.noConfusion hr
    · simp only [navbarScrollHandler, hn] at hr
      split at hr <;> rename_i h <;> injection hr with hq <;> subst hq
      · refine ⟨rfl, rfl, rfl, rfl, rfl, rfl, ?_, ?_⟩
        · intro e f he hf
          injection he with he
          subst he
          injection hf with hf
          subst hf
          exact ⟨rfl, fun c hc => mem_classAdd_iff _ _ _ hc⟩
        · simp only [navbarScrollHandler]
          rw [if_pos h, classAdd_idem]
      · refine ⟨rfl, rfl, rfl, rfl, rfl, rfl, ?_, ?_⟩
        · intro e f he hf
          injection he with he
          subst he
          injection hf with hf
          subst hf
          exact ⟨rfl, fun c hc => mem_classRemove_iff _ _ _ hc⟩
        · simp only [navbarScrollHandler]
          rw [if_neg h, classRemove_idem]
  · intro hr
    rcases hb : p.backToTop with _ | btn
    · simp only [backToTopScrollHandler, hb] at hr
      exact Except.noConfusion hr
    · simp only [backToTopScrollHandler, hb] at hr
      split at hr <;> rename_i h <;> injection hr with hq <;> subst hq
      · refine ⟨rfl, rfl, rfl, rfl, rfl, rfl, ?_, ?_⟩
        · intro e f he hf
          injection he with he
          subst he
          injection hf with hf
          subst hf
          exact ⟨rfl, fun c hc => mem_classAdd_iff _ _ _ hc⟩
        · simp only [backToTopScrollHandler]
          rw [if_pos h, classAdd_idem]
      · refine ⟨rfl, rfl, rfl, rfl, rfl, rfl, ?_, ?_⟩
        · intro e f he hf
          injection he with he
          subst he
          injection hf with hf
          subst hf
          exact ⟨rfl, fun c hc => mem_classRemove_iff _ _ _ hc⟩
        · simp only [backToTopScrollHandler]
          rw [if_neg h, classRemove_idem]

/-- C10, witness: the idempotence conclusions evaluated on the concrete
runs `pNav51` (navbar handler) and `pAllPresent` (back-to-top handler). -/
theorem C10_scroll_handlers_frame_witness :
    navbarScrollHandler pNav51After = .ok pNav51After ∧
    backToTopScrollHandler pAllPresentShown = .ok pAllPresentShown :=
  ⟨((C10_scroll_handlers_frame pNav51 pNav51After).1 rfl).2.2.2.2.2.2.2,
   ((C10_scroll_handlers_frame pAllPresent pAllPresentShown).2 rfl).2.2.2.2.2.2.2⟩

end Hillz
